import Mathlib

/-!
Shallow embedding of `src/src/mma_syd.py`, a partly written MicroPython driver
for the MMA8451/MMA8452 accelerometers, together with a spec-modelled
`set_range` (that method is invoked by `__init__` but never defined in the
source file).

Modelling choices:
* The I2C bus is a byte-register file plus a log of the transactions issued.
  `mem_read` returns one byte (the source always reads one byte and applies
  `ord`); `mem_write` stores one byte.
* A driver object is its Python attribute dictionary, a list of name/value
  pairs in assignment order, so that attribute lookups the source performs on
  names the constructor never binds (`_i2c`, `_addr`, `_range`, `set_range`)
  surface as `AttributeError` values, exactly as they do at run time.
* Local-variable slips surface the same way: `get_ax_bits` evaluates
  `accel_x = (accel_x_high << 8) + accel_low` where no `accel_low` is ever
  bound, so the call raises `NameError` after its two register reads.
* Python floats are modelled as exact rationals; every fact proved below about
  float-valued reads is insensitive to rounding (the discrepancies exhibited
  are 0 versus quantities far larger than any float rounding error).
-/

namespace MmaSyd

/-- Register address of the STATUS register (`micropython.const (0x00)`). -/
def STATUS_REG : Nat := 0x00

/-- Register address of OUT_X_MSB. -/
def OUT_X_MSB : Nat := 0x01

/-- Register address of OUT_X_LSB. -/
def OUT_X_LSB : Nat := 0x02

/-- Register address of OUT_Y_MSB. -/
def OUT_Y_MSB : Nat := 0x03

/-- Register address of OUT_Y_LSB. -/
def OUT_Y_LSB : Nat := 0x04

/-- Register address of OUT_Z_MSB. -/
def OUT_Z_MSB : Nat := 0x05

/-- Register address of OUT_Z_LSB. -/
def OUT_Z_LSB : Nat := 0x06

/-- Register address of WHO_AM_I, the identity byte. -/
def WHO_AM_I : Nat := 0x0D

/-- Register address of XYZ_DATA_CFG, range selection in bits 0-1. -/
def XYZ_DATA_CFG : Nat := 0x0E

/-- Register address of CTRL_REG1, bit 0 is the active/standby bit. -/
def CTRL_REG1 : Nat := 0x2A

/-- Constant selecting the measurement range ±2g. -/
def RANGE_2g : Nat := 0

/-- Constant selecting the measurement range ±4g. -/
def RANGE_4g : Nat := 1

/-- Constant selecting the measurement range ±8g. -/
def RANGE_8g : Nat := 2

/-- One transaction on the two-wire bus: a one-byte register read or write
addressed to a device address and an internal register offset. -/
inductive BusEvent
  | readE (addr reg : Nat)
  | writeE (addr reg val : Nat)
  deriving DecidableEq

/-- The bus collaborator: a byte-register file together with the log of
transactions issued so far. -/
structure Bus where
  regs : Nat → Nat
  log : List BusEvent

/-- `ord (i2c.mem_read (1, addr, reg))`: returns one byte and records the
transaction. -/
def mem_read (bus : Bus) (addr reg : Nat) : Nat × Bus :=
  (bus.regs reg % 256, ⟨bus.regs, bus.log ++ [BusEvent.readE addr reg]⟩)

/-- `i2c.mem_write (chr v, addr, reg)`: stores one byte and records the
transaction. -/
def mem_write (bus : Bus) (addr reg v : Nat) : Bus :=
  ⟨fun r => if r = reg then v % 256 else bus.regs r,
   bus.log ++ [BusEvent.writeE addr reg v]⟩

/-- The Python exceptions the embedded code can raise. -/
inductive PyErr
  | nameError (n : String)
  | attributeError (n : String)
  | typeError (msg : String)
  deriving DecidableEq

/-- A driver object, modelled as its attribute dictionary in assignment
order.  The bus-handle attribute `i2c` carries no data of its own here (the
bus state is threaded separately), so its stored value is 0. -/
abbrev PyObj := List (String × Nat)

/-- Python attribute lookup: the value bound to `name`, or `none` when the
attribute was never assigned (which the methods below turn into
`AttributeError`). -/
def pyGetAttr (self : PyObj) (name : String) : Option Nat :=
  (self.find? (fun p => p.1 == name)).map (fun p => p.2)

/-- `MMA845x.standby`: when `self._works` is truthy the body evaluates
`ord (self._i2c.mem_read (1, self._addr, CTRL_REG1))`, then clears bit 0
(`reg1 &= ~0x01`, which on a byte is `reg1 &&& 0xFE`) and writes
`chr (reg1 & 0xFF)` back.  The constructor assigns attributes `i2c` and
`addr`, never `_i2c` or `_addr`, so the first lookup raises
`AttributeError` before any bus transaction.  When `_works` is falsy the
body is skipped entirely. -/
def standby (self : PyObj) (bus : Bus) : Except PyErr Unit × Bus :=
  match pyGetAttr self "_works" with
  | none => (Except.error (PyErr.attributeError "_works"), bus)
  | some w =>
    if w ≠ 0 then
      match pyGetAttr self "_i2c" with
      | none => (Except.error (PyErr.attributeError "_i2c"), bus)
      | some _ =>
        match pyGetAttr self "_addr" with
        | none => (Except.error (PyErr.attributeError "_addr"), bus)
        | some a =>
          let p := mem_read bus a CTRL_REG1
          (Except.ok (), mem_write p.2 a CTRL_REG1 ((p.1 &&& 0xFE) &&& 0xFF))
    else (Except.ok (), bus)

/-- `MMA845x.active`: when `self._works` is truthy, reads CTRL_REG1 through
`self.i2c` / `self.addr` (which the constructor does assign), sets bit 0
(`reg1 |= 0x01`) and writes the byte back. -/
def active (self : PyObj) (bus : Bus) : Except PyErr Unit × Bus :=
  match pyGetAttr self "_works" with
  | none => (Except.error (PyErr.attributeError "_works"), bus)
  | some w =>
    if w ≠ 0 then
      match pyGetAttr self "i2c" with
      | none => (Except.error (PyErr.attributeError "i2c"), bus)
      | some _ =>
        match pyGetAttr self "addr" with
        | none => (Except.error (PyErr.attributeError "addr"), bus)
        | some a =>
          let p := mem_read bus a CTRL_REG1
          (Except.ok (), mem_write p.2 a CTRL_REG1 (p.1 ||| 0x01))
    else (Except.ok (), bus)

/-- `MMA845x.get_ax_bits`: reads OUT_X_MSB and OUT_X_LSB into the locals
`accel_x_high` and `accel_x_low`, then evaluates
`accel_x = (accel_x_high << 8) + accel_low`.  No name `accel_low` is bound
anywhere (neither locally nor at module level), so the call raises
`NameError` after the two register reads; the later sign-conversion return
statement is unreachable. -/
def get_ax_bits (self : PyObj) (bus : Bus) : Except PyErr Int × Bus :=
  match pyGetAttr self "i2c" with
  | none => (Except.error (PyErr.attributeError "i2c"), bus)
  | some _ =>
    match pyGetAttr self "addr" with
    | none => (Except.error (PyErr.attributeError "addr"), bus)
    | some a =>
      let p1 := mem_read bus a OUT_X_MSB
      let p2 := mem_read p1.2 a OUT_X_LSB
      (Except.error (PyErr.nameError "accel_low"), p2.2)

/-- The sign conversion written in `get_ax_bits`'s return statement,
`ax_bits if ax_bits < 32768 else ax_bits - 65536`, as a function of the
combined 16-bit word.  In the source this statement is dead code: the
`NameError` above fires first, and no other method contains it. -/
def signedConvert (v : Nat) : Int :=
  if v < 32768 then (v : Int) else (v : Int) - 65536

/-- `MMA845x.get_ay_bits`: prints a message and returns 0; no bus access,
no dependence on the object's state or the Y sample registers. -/
def get_ay_bits (_self : PyObj) (bus : Bus) : Except PyErr Int × Bus :=
  (Except.ok 0, bus)

/-- `MMA845x.get_az_bits`: prints a message and returns 0; no bus access. -/
def get_az_bits (_self : PyObj) (bus : Bus) : Except PyErr Int × Bus :=
  (Except.ok 0, bus)

/-- `MMA845x.get_ax`: `x_g = (self.get_ax_bits () * 0.061) / 1000`, the float
literal 0.061 modelled exactly as 61/1000.  The factor is a fixed constant:
the stored range field is not consulted. -/
def get_ax (self : PyObj) (bus : Bus) : Except PyErr ℚ × Bus :=
  match get_ax_bits self bus with
  | (Except.error e, bus1) => (Except.error e, bus1)
  | (Except.ok v, bus1) => (Except.ok (((v : ℚ) * (61 / 1000)) / 1000), bus1)

/-- `MMA845x.get_ay`: prints a message and returns 0, ignoring the bus, the Y
sample registers and the stored range. -/
def get_ay (_self : PyObj) (bus : Bus) : Except PyErr ℚ × Bus :=
  (Except.ok 0, bus)

/-- `MMA845x.get_az`: prints a message and returns 0, ignoring the bus, the Z
sample registers and the stored range. -/
def get_az (_self : PyObj) (bus : Bus) : Except PyErr ℚ × Bus :=
  (Except.ok 0, bus)

/-- `MMA845x.get_accels`: `(self.get_ax (), self.get_ay (), self.get_az ())`,
evaluated left to right; an exception in any component propagates. -/
def get_accels (self : PyObj) (bus : Bus) : Except PyErr (ℚ × ℚ × ℚ) × Bus :=
  match get_ax self bus with
  | (Except.error e, bus1) => (Except.error e, bus1)
  | (Except.ok x, bus1) =>
    match get_ay self bus1 with
    | (Except.error e, bus2) => (Except.error e, bus2)
    | (Except.ok y, bus2) =>
      match get_az self bus2 with
      | (Except.error e, bus3) => (Except.error e, bus3)
      | (Except.ok z, bus3) => (Except.ok (x, y, z), bus3)

/-- Outcome of `MMA845x.__init__`: the exception (if any) that propagated,
the object's attribute state at that point, and the final bus state. -/
structure InitTrace where
  result : Except PyErr Unit
  self : PyObj
  bus : Bus

/-- `MMA845x.__init__ (i2c, address, accel_range = 0)`.  Steps, in source
order: assign `i2c`, `addr`, and `accel_range` (the latter is hard-coded to
`RANGE_2g`; the `accel_range` parameter is never read, hence its binder is
unused here); read WHO_AM_I and assign `_dev_id`; if the byte is 0x1A or
0x2A assign `_works = True` and continue, otherwise assign `_works = False`
and raise - building the `ValueError` message concatenates the integer
`address` onto a str, which itself raises `TypeError`, and either way an
exception propagates and no instance is produced.  On the recognized path,
`self.standby ()` is called (which raises `AttributeError` on `_i2c`, see
`standby`); had it returned, `self.set_range (self.accel_range)` would raise
`AttributeError` because the class defines no `set_range` method. -/
def mma_init (address _accel_range : Nat) (bus : Bus) : InitTrace :=
  let self0 : PyObj := [("i2c", 0), ("addr", address), ("accel_range", RANGE_2g)]
  let p := mem_read bus address WHO_AM_I
  let self1 : PyObj := self0 ++ [("_dev_id", p.1)]
  if p.1 = 0x1A ∨ p.1 = 0x2A then
    let self2 : PyObj := self1 ++ [("_works", 1)]
    match standby self2 p.2 with
    | (Except.error e, bus2) => ⟨Except.error e, self2, bus2⟩
    | (Except.ok _, bus2) => ⟨Except.error (PyErr.attributeError "set_range"), self2, bus2⟩
  else
    let self2 : PyObj := self1 ++ [("_works", 0)]
    ⟨Except.error (PyErr.typeError "can only concatenate str (not int) to str"), self2, p.2⟩

/-- `MMA845x.__repr__`: for a non-working handle, a fixed string; otherwise a
fresh read of CTRL_REG1 through `self.i2c` / `self.addr`, then the diagnostic
string.  Building that string evaluates `str (1 << (self._range + 1))`, and
`_range` is an attribute no code path ever assigns (the constructor stores the
range under `accel_range`), so the lookup raises `AttributeError` after the
register read.  The numeric renderings use `toString`; `hex` formatting is
abstracted, which no claim below depends on. -/
def mma_repr (self : PyObj) (bus : Bus) : Except PyErr String × Bus :=
  match pyGetAttr self "_works" with
  | none => (Except.error (PyErr.attributeError "_works"), bus)
  | some w =>
    if w = 0 then
      match pyGetAttr self "addr" with
      | none => (Except.error (PyErr.attributeError "addr"), bus)
      | some a => (Except.ok ("No working MMA845x at I2C address " ++ toString a), bus)
    else
      match pyGetAttr self "i2c" with
      | none => (Except.error (PyErr.attributeError "i2c"), bus)
      | some _ =>
        match pyGetAttr self "addr" with
        | none => (Except.error (PyErr.attributeError "addr"), bus)
        | some a =>
          let p := mem_read bus a CTRL_REG1
          match pyGetAttr self "_dev_id" with
          | none => (Except.error (PyErr.attributeError "_dev_id"), p.2)
          | some dev =>
            match pyGetAttr self "_range" with
            | none => (Except.error (PyErr.attributeError "_range"), p.2)
            | some rng =>
              (Except.ok ("MMA845" ++ toString (dev >>> 4) ++ ": I2C address "
                ++ toString a ++ ", Range=" ++ toString ((1 : Nat) <<< (rng + 1))
                ++ "g, Mode=" ++ (if p.1 &&& 0x01 ≠ 0 then "active" else "standby")), p.2)

/-- Driver mode as the spec's state machine tracks it. -/
inductive DriverMode
  | standbyM
  | activeM
  deriving DecidableEq

/-- The spec's error taxonomy relevant to range configuration. -/
inductive SpecErr
  | invalidRange
  | invalidModeForOperation
  deriving DecidableEq

/-- Spec-level driver state for the range-setting contract. -/
structure SpecDriver where
  addr : Nat
  range : Nat
  mode : DriverMode

/-- Modelled from the spec: `set_range` is invoked by `__init__` in
`src/src/mma_syd.py` but the class defines no such method, so its body is
missing from the repository.  Per the spec, `setRange` is legal only in
standby: called while Active it fails with `InvalidModeForOperation`,
leaving the stored range unchanged and issuing no bus transaction; in
standby with a legal range (`RANGE_2g`, `RANGE_4g`, `RANGE_8g`) it
read-modify-writes bits 0-1 of XYZ_DATA_CFG preserving the other bits and
updates the cached range; an illegal range fails with `InvalidRange`. -/
def set_range (st : SpecDriver) (r : Nat) (bus : Bus) : Except SpecErr SpecDriver × Bus :=
  if st.mode = DriverMode.activeM then (Except.error SpecErr.invalidModeForOperation, bus)
  else if r = RANGE_2g ∨ r = RANGE_4g ∨ r = RANGE_8g then
    let p := mem_read bus st.addr XYZ_DATA_CFG
    (Except.ok { st with range := r }, mem_write p.2 st.addr XYZ_DATA_CFG ((p.1 &&& 0xFC) ||| r))
  else (Except.error SpecErr.invalidRange, bus)

/-- A driver object exactly as the constructor leaves it after reading a
recognized WHO_AM_I byte (0x2A) at bus address 29. -/
def validSelf : PyObj :=
  [("i2c", 0), ("addr", 29), ("accel_range", RANGE_2g), ("_dev_id", 0x2A), ("_works", 1)]

/-- A driver object whose identity check failed (`_works` stored falsy). -/
def invalidSelf : PyObj :=
  [("i2c", 0), ("addr", 29), ("accel_range", RANGE_2g), ("_dev_id", 5), ("_works", 0)]

/-- A concrete register file: the given bytes at the X and Y sample
registers, WHO_AM_I and CTRL_REG1, zero elsewhere; empty log. -/
def mkBus (xm xl ym yl whoami ctrl : Nat) : Bus :=
  ⟨fun r =>
    if r = OUT_X_MSB then xm
    else if r = OUT_X_LSB then xl
    else if r = OUT_Y_MSB then ym
    else if r = OUT_Y_LSB then yl
    else if r = WHO_AM_I then whoami
    else if r = CTRL_REG1 then ctrl
    else 0, []⟩

/-- Claim C1: the raw axis reads are claimed to combine the byte pair as
`(msb << 8) | lsb`, sign-convert the word, and do so identically for X, Y
and Z.  In the code, at X and Y sample bytes (0x9C, 0x40) whose signed
combination is -25536, `get_ax_bits` raises `NameError` (its combine line
reads the unbound name `accel_low`) and `get_ay_bits` / `get_az_bits`
return 0 without reading the bus, so no axis read returns the claimed
signed value. -/
theorem raw_read_sign_conversion_broken :
    (get_ax_bits validSelf (mkBus 0x9C 0x40 0x9C 0x40 0x2A 0)).1
        = Except.error (PyErr.nameError "accel_low")
      ∧ (get_ay_bits validSelf (mkBus 0x9C 0x40 0x9C 0x40 0x2A 0)).1 = Except.ok 0
      ∧ (get_az_bits validSelf (mkBus 0x9C 0x40 0x9C 0x40 0x2A 0)).1 = Except.ok 0
      ∧ signedConvert ((0x9C <<< 8) + 0x40) = -25536 :=
  ⟨rfl, rfl, rfl, by decide⟩

/-- Claim C2: the physical-unit reads are claimed to scale the raw value by
2*r/65536 for the configured range r.  In the code, `get_ay` returns 0 for
every bus state and stored range (here the Y registers hold raw value 1000,
for which the claim demands 1000*(2*2/65536), a nonzero number of g, at
±2g and four times that at ±8g), and `get_ax` propagates the `NameError`
from `get_ax_bits` instead of returning any scaled value; the only
conversion present in the source, X's, multiplies by the fixed literal
0.061/1000 independent of the stored range. -/
theorem unit_conversion_not_range_scaled :
    (get_ay validSelf (mkBus 0 0 0x03 0xE8 0x2A 0)).1 = Except.ok 0
      ∧ (1000 : ℚ) * (2 * 2 / 65536) ≠ 0
      ∧ (get_ax validSelf (mkBus 0 0 0x03 0xE8 0x2A 0)).1
          = Except.error (PyErr.nameError "accel_low") :=
  ⟨rfl, by norm_num, rfl⟩

/-- Claim C3: when the WHO_AM_I byte read at construction is neither 0x1A
nor 0x2A, `__init__` raises at the identity check (the handle is marked
non-working and building the error message itself raises `TypeError`), so
no usable handle is produced; when the byte is 0x1A or 0x2A the identity
check passes (`_works` is set truthy) and the construction failure that
does occur is the later, unrelated `AttributeError` on `_i2c` inside
`standby`, not a failure of the identity check. -/
theorem init_identity_check (address a : Nat) (bus : Bus) :
    (¬ (bus.regs WHO_AM_I % 256 = 0x1A ∨ bus.regs WHO_AM_I % 256 = 0x2A) →
        (mma_init address a bus).result
            = Except.error (PyErr.typeError "can only concatenate str (not int) to str")
          ∧ pyGetAttr (mma_init address a bus).self "_works" = some 0)
      ∧ ((bus.regs WHO_AM_I % 256 = 0x1A ∨ bus.regs WHO_AM_I % 256 = 0x2A) →
        (mma_init address a bus).result = Except.error (PyErr.attributeError "_i2c")
          ∧ pyGetAttr (mma_init address a bus).self "_works" = some 1) := by
  constructor
  · intro h
    unfold mma_init
    simp only [mem_read]
    rw [if_neg h]
    exact ⟨rfl, rfl⟩
  · intro h
    unfold mma_init
    simp only [mem_read]
    rw [if_pos h]
    exact ⟨rfl, rfl⟩

/-- Witness for claim C3 at concrete buses: WHO_AM_I byte 0x55 (rejected)
and 0x2A (recognized). -/
theorem init_identity_check_witness :
    ((mma_init 29 0 (mkBus 0 0 0 0 0x55 0)).result
        = Except.error (PyErr.typeError "can only concatenate str (not int) to str")
      ∧ pyGetAttr (mma_init 29 0 (mkBus 0 0 0 0 0x55 0)).self "_works" = some 0)
    ∧ ((mma_init 29 0 (mkBus 0 0 0 0 0x2A 0xAA)).result
        = Except.error (PyErr.attributeError "_i2c")
      ∧ pyGetAttr (mma_init 29 0 (mkBus 0 0 0 0 0x2A 0xAA)).self "_works" = some 1) :=
  ⟨(init_identity_check 29 0 (mkBus 0 0 0 0 0x55 0)).1 (by decide),
   (init_identity_check 29 0 (mkBus 0 0 0 0 0x2A 0xAA)).2 (by decide)⟩

/-- Claim C4: `get_accels` is claimed to return the triple of per-axis
converted readings.  In the code, on a valid handle with X bytes (0x01,
0x02) and Y raw value 1000, `get_accels` propagates the `NameError` raised
inside `get_ax` and returns no triple at all, while its Y and Z components
(`get_ay`, `get_az`) are the constant 0 regardless of the bus bytes and the
stored range. -/
theorem get_accels_not_per_axis :
    (get_accels validSelf (mkBus 0x01 0x02 0x03 0xE8 0x2A 0)).1
        = Except.error (PyErr.nameError "accel_low")
      ∧ (get_ay validSelf (mkBus 0x01 0x02 0x03 0xE8 0x2A 0)).1 = Except.ok 0
      ∧ (get_az validSelf (mkBus 0x01 0x02 0x03 0xE8 0x2A 0)).1 = Except.ok 0 :=
  ⟨rfl, rfl, rfl⟩

/-- Claim C5 (on the spec-modelled `set_range`, whose body the repository
lacks): a range change requested while the mode is Active fails with
`InvalidModeForOperation` and returns the bus unchanged - so its log gains
no transaction, nothing is written to XYZ_DATA_CFG, and no updated driver
state (in particular no changed stored range) is produced. -/
theorem set_range_rejected_while_active (st : SpecDriver) (r : Nat) (bus : Bus)
    (h : st.mode = DriverMode.activeM) :
    set_range st r bus = (Except.error SpecErr.invalidModeForOperation, bus) := by
  simp [set_range, h]

/-- Witness for claim C5: an active driver at address 29 asked for ±8g. -/
theorem set_range_rejected_while_active_witness :
    set_range ⟨29, RANGE_2g, DriverMode.activeM⟩ RANGE_8g (mkBus 0 0 0 0 0x2A 0)
      = (Except.error SpecErr.invalidModeForOperation, mkBus 0 0 0 0 0x2A 0) :=
  set_range_rejected_while_active ⟨29, RANGE_2g, DriverMode.activeM⟩ RANGE_8g
    (mkBus 0 0 0 0 0x2A 0) rfl

/-- Claim C6: with CTRL_REG1 initially 0xAA on a valid handle, `active`
does perform the claimed read-modify-write (its log is one read of
CTRL_REG1 followed by a write of 0xAA with bit 0 set, preserving bits 1-7),
but `standby` raises `AttributeError` on `_i2c` (an attribute the
constructor never assigns) and returns the bus untouched - it never writes
back the byte with bit 0 cleared, so the claimed active/standby/active
round trip cannot even be executed. -/
theorem standby_never_writes_back :
    (standby validSelf (mkBus 0 0 0 0 0x2A 0xAA)).1
        = Except.error (PyErr.attributeError "_i2c")
      ∧ (standby validSelf (mkBus 0 0 0 0 0x2A 0xAA)).2 = mkBus 0 0 0 0 0x2A 0xAA
      ∧ (active validSelf (mkBus 0 0 0 0 0x2A 0xAA)).2.log
          = [BusEvent.readE 29 CTRL_REG1, BusEvent.writeE 29 CTRL_REG1 0xAB] :=
  ⟨rfl, rfl, rfl⟩

/-- Claim C7: with the illegal range argument 7 and a recognized identity
byte, the constructor is claimed to fail with `InvalidRange` before any bus
transaction.  In the code the `accel_range` parameter is never validated
(or even read): the WHO_AM_I bus read is issued unconditionally as the very
first transaction, the stored range field is hard-coded to `RANGE_2g`, and
the construction failure that occurs is the unrelated `AttributeError` on
`_i2c` - no range error exists anywhere in the source. -/
theorem init_no_range_validation :
    (mma_init 29 7 (mkBus 0 0 0 0 0x2A 0xAA)).bus.log = [BusEvent.readE 29 WHO_AM_I]
      ∧ (mma_init 29 7 (mkBus 0 0 0 0 0x2A 0xAA)).result
          = Except.error (PyErr.attributeError "_i2c")
      ∧ pyGetAttr (mma_init 29 7 (mkBus 0 0 0 0 0x2A 0xAA)).self "accel_range"
          = some RANGE_2g :=
  ⟨rfl, rfl, rfl⟩

/-- Claim C8: the diagnostic description is claimed to report the configured
range and a mode derived from a fresh CTRL_REG1 read.  In the code, on a
valid handle `__repr__` does issue the fresh CTRL_REG1 read but then raises
`AttributeError` on `_range`, an attribute no code path ever assigns (the
constructor stores the range under `accel_range`, and no `set_range` method
exists to update anything), so no range is ever reported. -/
theorem repr_range_attribute_missing :
    (mma_repr validSelf (mkBus 0 0 0 0 0x2A 0xAA)).1
        = Except.error (PyErr.attributeError "_range")
      ∧ (mma_repr validSelf (mkBus 0 0 0 0 0x2A 0xAA)).2.log = [BusEvent.readE 29 CTRL_REG1] :=
  ⟨rfl, rfl⟩

/-- Claim C9: on a handle whose identity check failed (`_works` stored
falsy), `standby` and `active` return without raising, issue no bus
transaction (the bus, log included, is returned exactly as given) and leave
the object untouched. -/
theorem invalid_handle_mode_ops_inert (self : PyObj) (bus : Bus)
    (h : pyGetAttr self "_works" = some 0) :
    standby self bus = (Except.ok (), bus) ∧ active self bus = (Except.ok (), bus) := by
  refine ⟨?_, ?_⟩ <;> simp [standby, active, h]

/-- Witness for claim C9: the concrete rejected-identity object. -/
theorem invalid_handle_mode_ops_inert_witness :
    standby invalidSelf (mkBus 0 0 0 0 0x55 0) = (Except.ok (), mkBus 0 0 0 0 0x55 0)
      ∧ active invalidSelf (mkBus 0 0 0 0 0x55 0) = (Except.ok (), mkBus 0 0 0 0 0x55 0) :=
  invalid_handle_mode_ops_inert invalidSelf (mkBus 0 0 0 0 0x55 0) (by decide)

/-- Claim C10: whatever value is passed for the constructor's `accel_range`
parameter, the stored range attribute is `RANGE_2g`: `__init__` assigns
`self.accel_range = RANGE_2g` and never reads its parameter. -/
theorem stored_range_ignores_argument (address a : Nat) (bus : Bus) :
    pyGetAttr (mma_init address a bus).self "accel_range" = some RANGE_2g := by
  unfold mma_init
  simp only [mem_read]
  split
  · split <;> rfl
  · rfl

end MmaSyd
